import Mathlib

/-!
Shallow embedding of `src/config.rs` of the `another-mq` repository: the
typed configuration-loading subsystem (schema tree, serde-derived
deserialization with per-field defaulting, custom variant parsers for the
syslog protocol and facility, the silent fallback-to-default loader, and
the three platform-conditional default-path resolvers).
-/

namespace AnotherMQ

/-- Embedding of `log::Level` (external `log` crate), the five severity
levels used by the `level` field of the `log` namespace. -/
inductive Level
  | Error
  | Warn
  | Info
  | Debug
  | Trace
deriving DecidableEq, Repr

/-- Embedding of `std::net::Ipv4Addr`: four octets. -/
structure Ipv4Addr where
  o1 : Nat
  o2 : Nat
  o3 : Nat
  o4 : Nat
deriving DecidableEq, Repr

/-- Embedding of `std::net::IpAddr`. Only the `V4` constructor is used by
the source's defaults; `V6` is kept so the type is not artificially
collapsed. -/
inductive IpAddr
  | V4 (addr : Ipv4Addr)
  | V6 (segments : List Nat)
deriving DecidableEq, Repr

/-- `DEFAULT_LISTENER_HOSTNAME` (config.rs line 15): `IpAddr::V4(Ipv4Addr::new(0, 0, 0, 0))`. -/
def DEFAULT_LISTENER_HOSTNAME : IpAddr := IpAddr.V4 ⟨0, 0, 0, 0⟩

/-- `DEFAULT_LISTENER_PORT` (config.rs line 18): `5672`. -/
def DEFAULT_LISTENER_PORT : Nat := 5672

/-- The `SyslogProtocol` tagged variant (config.rs lines 204-208). -/
inductive SyslogProtocol
  | Rfc3164
  | Rfc5424
deriving DecidableEq, Repr

/-- The `SyslogFacility` tagged variant, 20 members (config.rs lines 248-270). -/
inductive SyslogFacility
  | Kern
  | User
  | Mail
  | Daemon
  | Auth
  | Syslog
  | Lpr
  | News
  | Uucp
  | Cron
  | AuthPriv
  | Ftp
  | Local0
  | Local1
  | Local2
  | Local3
  | Local4
  | Local5
  | Local6
  | Local7
deriving DecidableEq, Repr, Fintype

/-- Embedding of the external `syslog` crate's `Facility` enumeration
(consumed but not owned by the source): the twenty constants named in the
`Into<syslog::Facility>` implementation (config.rs lines 272-299). -/
inductive Facility
  | LOG_KERN
  | LOG_USER
  | LOG_MAIL
  | LOG_DAEMON
  | LOG_AUTH
  | LOG_SYSLOG
  | LOG_LPR
  | LOG_NEWS
  | LOG_UUCP
  | LOG_CRON
  | LOG_AUTHPRIV
  | LOG_FTP
  | LOG_LOCAL0
  | LOG_LOCAL1
  | LOG_LOCAL2
  | LOG_LOCAL3
  | LOG_LOCAL4
  | LOG_LOCAL5
  | LOG_LOCAL6
  | LOG_LOCAL7
deriving DecidableEq, Repr

/-- `impl Into<syslog::Facility> for SyslogFacility` (config.rs lines 272-299):
the exhaustive twenty-arm match translating the locally owned facility
variant into the external library's identifier. -/
def SyslogFacility.into : SyslogFacility → Facility
  | .Kern => .LOG_KERN
  | .User => .LOG_USER
  | .Mail => .LOG_MAIL
  | .Daemon => .LOG_DAEMON
  | .Auth => .LOG_AUTH
  | .Syslog => .LOG_SYSLOG
  | .Lpr => .LOG_LPR
  | .News => .LOG_NEWS
  | .Uucp => .LOG_UUCP
  | .Cron => .LOG_CRON
  | .AuthPriv => .LOG_AUTHPRIV
  | .Ftp => .LOG_FTP
  | .Local0 => .LOG_LOCAL0
  | .Local1 => .LOG_LOCAL1
  | .Local2 => .LOG_LOCAL2
  | .Local3 => .LOG_LOCAL3
  | .Local4 => .LOG_LOCAL4
  | .Local5 => .LOG_LOCAL5
  | .Local6 => .LOG_LOCAL6
  | .Local7 => .LOG_LOCAL7

/-- Deserialization errors, embedding the two `serde::de::Error`
constructions the source uses (`invalid_value` with the unexpected string
and the expected-set message, and the derive-generated missing-field
error), plus a constructor for a document `toml::from_str` rejects before
it reaches the schema (syntactically malformed text). -/
inductive DeError
  | missingField (name : String)
  | invalidValue (unexpected : String) (expected : String)
  | malformedDocument
deriving DecidableEq, Repr

/-- `SyslogProtocolVisitor::visit_str` (config.rs lines 224-236): the match
`"rfc3164" | "RFC3164" => Rfc3164`, `"rfc5424" | "RFC5424" => Rfc5424`,
anything else a `de::Error::invalid_value` naming the offending token.
The Rust or-pattern match on `&str` is rendered as ordered equality tests. -/
def SyslogProtocolVisitor.visit_str (value : String) : Except DeError SyslogProtocol :=
  if value = "rfc3164" ∨ value = "RFC3164" then Except.ok SyslogProtocol.Rfc3164
  else if value = "rfc5424" ∨ value = "RFC5424" then Except.ok SyslogProtocol.Rfc5424
  else Except.error (DeError.invalidValue value "Unknown syslog protocol!")

/-- `SyslogFacilityVisitor::visit_str` (config.rs lines 315-345): exactly the
twenty lowercase facility tokens, anything else a `de::Error::invalid_value`.
The Rust match on `&str` is rendered as ordered equality tests. -/
def SyslogFacilityVisitor.visit_str (value : String) : Except DeError SyslogFacility :=
  if value = "kern" then Except.ok SyslogFacility.Kern
  else if value = "user" then Except.ok SyslogFacility.User
  else if value = "mail" then Except.ok SyslogFacility.Mail
  else if value = "daemon" then Except.ok SyslogFacility.Daemon
  else if value = "auth" then Except.ok SyslogFacility.Auth
  else if value = "syslog" then Except.ok SyslogFacility.Syslog
  else if value = "lpr" then Except.ok SyslogFacility.Lpr
  else if value = "news" then Except.ok SyslogFacility.News
  else if value = "uucp" then Except.ok SyslogFacility.Uucp
  else if value = "cron" then Except.ok SyslogFacility.Cron
  else if value = "authpriv" then Except.ok SyslogFacility.AuthPriv
  else if value = "ftp" then Except.ok SyslogFacility.Ftp
  else if value = "local0" then Except.ok SyslogFacility.Local0
  else if value = "local1" then Except.ok SyslogFacility.Local1
  else if value = "local2" then Except.ok SyslogFacility.Local2
  else if value = "local3" then Except.ok SyslogFacility.Local3
  else if value = "local4" then Except.ok SyslogFacility.Local4
  else if value = "local5" then Except.ok SyslogFacility.Local5
  else if value = "local6" then Except.ok SyslogFacility.Local6
  else if value = "local7" then Except.ok SyslogFacility.Local7
  else Except.error (DeError.invalidValue value "Unknown syslog facility!")

/-- The `Syslog` record (config.rs lines 183-189). -/
structure Syslog where
  host : Option IpAddr
  port : Option Nat
  protocol : SyslogProtocol
  facility : SyslogFacility
  process : String
deriving DecidableEq, Repr

/-- The `Log` record (config.rs lines 153-163). -/
structure Log where
  level : Level
  file : Option String
  syslog : Option Syslog
deriving DecidableEq, Repr

/-- The `Network` record (config.rs lines 363-371). -/
structure Network where
  hostname : IpAddr
  port : Nat
deriving DecidableEq, Repr

/-- The `Queue` unit record (config.rs line 394). -/
inductive Queue
  | mk
deriving DecidableEq, Repr

/-- The root `Config` record (config.rs lines 39-48). -/
structure Config where
  log : Log
  network : Network
  queue : Queue
deriving DecidableEq, Repr

/-- `Log::default_level` (config.rs lines 166-168): `Level::Info`. -/
def Log.default_level : Level := Level.Info

/-- `Network::default_hostname` (config.rs lines 374-376). -/
def Network.default_hostname : IpAddr := DEFAULT_LISTENER_HOSTNAME

/-- `Network::default_port` (config.rs lines 378-380). -/
def Network.default_port : Nat := DEFAULT_LISTENER_PORT

/-- `impl Default for Log` (config.rs lines 171-179). -/
def Log.default : Log :=
  { level := Log.default_level, file := none, syslog := none }

/-- `impl Default for Syslog` (config.rs lines 191-201). -/
def Syslog.default : Syslog :=
  { host := none, port := none, protocol := SyslogProtocol.Rfc3164
  , facility := SyslogFacility.User, process := "" }

/-- `impl Default for Network` (config.rs lines 383-390). -/
def Network.default : Network :=
  { hostname := Network.default_hostname, port := Network.default_port }

/-- `#[derive(Default)]` for the unit struct `Queue` (config.rs line 393). -/
def Queue.default : Queue := Queue.mk

/-- `impl Default for Config` (config.rs lines 139-147). -/
def Config.default : Config :=
  { log := Log.default, network := Network.default, queue := Queue.default }

/-- A source document's `[log.syslog]` table, as the serde derive for
`Syslog` sees it: each key either absent or bound to a value. The leaves
whose textual parsing no claim depends on (`host`, `port`) carry their
already-decoded value; `protocol` and `facility` carry the raw token that
the custom visitors receive; `process` carries the raw string. -/
structure SyslogDoc where
  host : Option IpAddr
  port : Option Nat
  protocol : Option String
  facility : Option String
  process : Option String
deriving DecidableEq, Repr

/-- A source document's `[log]` table as the serde derive for `Log` sees it. -/
structure LogDoc where
  level : Option Level
  file : Option String
  syslog : Option SyslogDoc
deriving DecidableEq, Repr

/-- A source document's `[network]` table as the serde derive for `Network`
sees it. -/
structure NetworkDoc where
  hostname : Option IpAddr
  port : Option Nat
deriving DecidableEq, Repr

/-- A well-formed TOML document against the `Config` schema: presence or
absence of each of the three top-level tables. The `queue` entry records
only the presence of the `[queue]` table, since `Queue` carries no fields. -/
structure ConfigDoc where
  log : Option LogDoc
  network : Option NetworkDoc
  queue : Option Unit
deriving DecidableEq, Repr

/-- Derived `Deserialize` for `Syslog` (config.rs lines 182-189): `host` and
`port` are `Option` fields (missing means `None`); `protocol` and
`facility` are required and parsed by the custom visitors; `process` is a
required `String` with no `#[serde(default)]`. A missing required field is
the derive-generated `missing field` error. -/
def Syslog.deserialize (d : SyslogDoc) : Except DeError Syslog :=
  match d.protocol with
  | none => Except.error (DeError.missingField "protocol")
  | some rawProtocol =>
    match SyslogProtocolVisitor.visit_str rawProtocol with
    | Except.error e => Except.error e
    | Except.ok protocol =>
      match d.facility with
      | none => Except.error (DeError.missingField "facility")
      | some rawFacility =>
        match SyslogFacilityVisitor.visit_str rawFacility with
        | Except.error e => Except.error e
        | Except.ok facility =>
          match d.process with
          | none => Except.error (DeError.missingField "process")
          | some process =>
            Except.ok { host := d.host, port := d.port, protocol := protocol
                      , facility := facility, process := process }

/-- Derived `Deserialize` for `Log` (config.rs lines 152-163): `level` has
`#[serde(default = "Log::default_level")]`; `file` and `syslog` are
`Option` fields (missing means `None`); an error from the nested `Syslog`
deserialization propagates. -/
def Log.deserialize (d : LogDoc) : Except DeError Log :=
  match d.syslog with
  | none =>
    Except.ok { level := d.level.getD Log.default_level, file := d.file, syslog := none }
  | some sd =>
    match Syslog.deserialize sd with
    | Except.error e => Except.error e
    | Except.ok s =>
      Except.ok { level := d.level.getD Log.default_level, file := d.file, syslog := some s }

/-- Derived `Deserialize` for `Network` (config.rs lines 362-371): both
fields carry a `#[serde(default = ...)]` attribute, so a well-typed
`[network]` table always deserializes. -/
def Network.deserialize (d : NetworkDoc) : Network :=
  { hostname := d.hostname.getD Network.default_hostname
  , port := d.port.getD Network.default_port }

/-- Derived `Deserialize` for `Config` (config.rs lines 38-48): the fields
`log`, `network` and `queue` carry no `#[serde(default)]` attribute and are
not `Option`, so each of the three top-level tables is required; a missing
one is the derive-generated `missing field` error, and a nested error
propagates. The `queue` field's value can never deserialize: `Queue` is a
unit struct (config.rs line 394), whose derived visitor accepts only a
unit value, and no TOML value is a unit — a present `[queue]` table fails
with an invalid-type error (the unexpected-kind string is modelled for a
table value), so the derived `Config` deserialization never succeeds. -/
def Config.deserialize (d : ConfigDoc) : Except DeError Config :=
  match d.log with
  | none => Except.error (DeError.missingField "log")
  | some ld =>
    match Log.deserialize ld with
    | Except.error e => Except.error e
    | Except.ok _ =>
      match d.network with
      | none => Except.error (DeError.missingField "network")
      | some _ =>
        match d.queue with
        | none => Except.error (DeError.missingField "queue")
        | some _ => Except.error (DeError.invalidValue "map" "unit struct Queue")

/-- The raw text `fs::read_to_string` hands to `toml::from_str`, abstracted
to the two outcomes that decide control flow: text that is not a
syntactically valid TOML document, or a well-formed document. -/
inductive RawToml
  | malformed
  | wellFormed (doc : ConfigDoc)
deriving DecidableEq, Repr

/-- `toml::from_str::<Config>` (config.rs line 60): syntactically malformed
text fails before the schema; a well-formed document is deserialized
against the derived `Config` schema. -/
def toml_from_str (raw : RawToml) : Except DeError Config :=
  match raw with
  | RawToml.malformed => Except.error DeError.malformedDocument
  | RawToml.wellFormed doc => Config.deserialize doc

/-- An `std::io::Error` from `fs::read_to_string`, abstracted to an opaque
code (missing file, permission denied, ...). -/
inductive IoError
  | mk (code : Nat)
deriving DecidableEq, Repr

/-- `Config::from_file` (config.rs lines 52-64), as a function of the
outcome of the `fs::read_to_string` call on the given path: a read error
returns `Config::default()`; otherwise the raw text goes to
`toml::from_str`, whose error again returns `Config::default()` and whose
success is returned as is. No error is surfaced in either case. -/
def Config.from_file (readResult : Except IoError RawToml) : Config :=
  match readResult with
  | Except.error _ => Config.default
  | Except.ok raw =>
    match toml_from_str raw with
    | Except.ok config => config
    | Except.error _ => Config.default

/-- The Windows branch of `Config::from_config_file` (config.rs lines 70-87),
path-resolution part: `env::var("APPDATA").expect(...)` panics when the
variable is absent (modelled as an error), else appends the fixed suffix. -/
def windowsConfigFilePath (appdata : Option String) : Except String String :=
  match appdata with
  | none => Except.error "%APPDATA% environment variable is not defined on your system!"
  | some p => Except.ok (p ++ "/another-mq/another-mq.toml")

/-- The macOS branch of `Config::from_config_file` (config.rs lines 93-114),
path-resolution part: the `brew --prefix` invocation's decoded stdout when
the command succeeds, else `env::var("ANOTHERMQ_HOME")` defaulted to the
empty string; the fixed suffix is appended. The stdout is modelled as
already UTF-8 decoded. The `brewResult` error payload is an opaque code. -/
def macosConfigFilePath (brewResult : Except Nat String) (anothermqHome : Option String) :
    Except String String :=
  match brewResult with
  | Except.ok out => Except.ok (out ++ "/etc/another-mq/another-mq.toml")
  | Except.error _ => Except.ok (anothermqHome.getD "" ++ "/etc/another-mq/another-mq.toml")

/-- The Linux/Unix branch of `Config::from_config_file` (config.rs lines
120-136), path-resolution part: `env::var("ANOTHERMQ_HOME")` defaulted to
the empty string, with the fixed suffix appended. -/
def unixConfigFilePath (anothermqHome : Option String) : Except String String :=
  Except.ok (anothermqHome.getD "" ++ "/etc/another-mq/another-mq.toml")

/-- C1: `Config::from_file` returns the parsed, defaulting-applied `Config`
exactly when both the file read and the TOML parse succeed; a failed read,
or a successful read followed by a failed parse, returns `Config::default()`
and surfaces no error to the caller. -/
theorem Config.from_file_fallback_policy :
    (∀ e : IoError, Config.from_file (Except.error e) = Config.default) ∧
    (∀ (raw : RawToml) (e : DeError), toml_from_str raw = Except.error e →
      Config.from_file (Except.ok raw) = Config.default) ∧
    (∀ (raw : RawToml) (c : Config), toml_from_str raw = Except.ok c →
      Config.from_file (Except.ok raw) = c) := by
  refine ⟨fun e => rfl, fun raw e h => ?_, fun raw c h => ?_⟩ <;>
    simp [Config.from_file, h]

/-- C1 witness: a syntactically malformed document falls back to the default. -/
theorem Config.from_file_fallback_policy_witness :
    Config.from_file (Except.ok RawToml.malformed) = Config.default :=
  Config.from_file_fallback_policy.2.1 RawToml.malformed DeError.malformedDocument rfl

/-- C3: the zero-argument default `Config` has `network.port == 5672`,
`network.hostname == 0.0.0.0`, `log.level == Info`, `log.file == None` and
`log.syslog == None`. -/
theorem Config.default_fields :
    Config.default.network.port = 5672 ∧
    Config.default.network.hostname = IpAddr.V4 ⟨0, 0, 0, 0⟩ ∧
    Config.default.log.level = Level.Info ∧
    Config.default.log.file = none ∧
    Config.default.log.syslog = none :=
  ⟨rfl, rfl, rfl, rfl, rfl⟩

/-- C4: the `SyslogProtocol` parser maps `"rfc3164"` and `"RFC3164"` to
`Rfc3164`, `"rfc5424"` and `"RFC5424"` to `Rfc5424`, and returns a
validation error naming the offending token for every other string. -/
theorem SyslogProtocolVisitor.visit_str_spec :
    SyslogProtocolVisitor.visit_str "rfc3164" = Except.ok SyslogProtocol.Rfc3164 ∧
    SyslogProtocolVisitor.visit_str "RFC3164" = Except.ok SyslogProtocol.Rfc3164 ∧
    SyslogProtocolVisitor.visit_str "rfc5424" = Except.ok SyslogProtocol.Rfc5424 ∧
    SyslogProtocolVisitor.visit_str "RFC5424" = Except.ok SyslogProtocol.Rfc5424 ∧
    (∀ s : String, s ≠ "rfc3164" → s ≠ "RFC3164" → s ≠ "rfc5424" → s ≠ "RFC5424" →
      SyslogProtocolVisitor.visit_str s =
        Except.error (DeError.invalidValue s "Unknown syslog protocol!")) := by
  refine ⟨rfl, rfl, rfl, rfl, fun s h1 h2 h3 h4 => ?_⟩
  simp [SyslogProtocolVisitor.visit_str, h1, h2, h3, h4]

/-- C4 witness: the unrecognized token `"tcp"` yields a validation error. -/
theorem SyslogProtocolVisitor.visit_str_spec_witness :
    SyslogProtocolVisitor.visit_str "tcp" =
      Except.error (DeError.invalidValue "tcp" "Unknown syslog protocol!") :=
  SyslogProtocolVisitor.visit_str_spec.2.2.2.2 "tcp"
    (by decide) (by decide) (by decide) (by decide)

/-- C5: the `SyslogFacility` parser accepts exactly the twenty lowercase
facility tokens, each mapped to its variant, and any other string — wrong
case included — yields a validation error naming the token. -/
theorem SyslogFacilityVisitor.visit_str_facility_table :
    SyslogFacilityVisitor.visit_str "kern" = Except.ok SyslogFacility.Kern ∧
    SyslogFacilityVisitor.visit_str "user" = Except.ok SyslogFacility.User ∧
    SyslogFacilityVisitor.visit_str "mail" = Except.ok SyslogFacility.Mail ∧
    SyslogFacilityVisitor.visit_str "daemon" = Except.ok SyslogFacility.Daemon ∧
    SyslogFacilityVisitor.visit_str "auth" = Except.ok SyslogFacility.Auth ∧
    SyslogFacilityVisitor.visit_str "syslog" = Except.ok SyslogFacility.Syslog ∧
    SyslogFacilityVisitor.visit_str "lpr" = Except.ok SyslogFacility.Lpr ∧
    SyslogFacilityVisitor.visit_str "news" = Except.ok SyslogFacility.News ∧
    SyslogFacilityVisitor.visit_str "uucp" = Except.ok SyslogFacility.Uucp ∧
    SyslogFacilityVisitor.visit_str "cron" = Except.ok SyslogFacility.Cron ∧
    SyslogFacilityVisitor.visit_str "authpriv" = Except.ok SyslogFacility.AuthPriv ∧
    SyslogFacilityVisitor.visit_str "ftp" = Except.ok SyslogFacility.Ftp ∧
    SyslogFacilityVisitor.visit_str "local0" = Except.ok SyslogFacility.Local0 ∧
    SyslogFacilityVisitor.visit_str "local1" = Except.ok SyslogFacility.Local1 ∧
    SyslogFacilityVisitor.visit_str "local2" = Except.ok SyslogFacility.Local2 ∧
    SyslogFacilityVisitor.visit_str "local3" = Except.ok SyslogFacility.Local3 ∧
    SyslogFacilityVisitor.visit_str "local4" = Except.ok SyslogFacility.Local4 ∧
    SyslogFacilityVisitor.visit_str "local5" = Except.ok SyslogFacility.Local5 ∧
    SyslogFacilityVisitor.visit_str "local6" = Except.ok SyslogFacility.Local6 ∧
    SyslogFacilityVisitor.visit_str "local7" = Except.ok SyslogFacility.Local7 ∧
    (∀ s : String, s ≠ "kern" → s ≠ "user" → s ≠ "mail" → s ≠ "daemon" → s ≠ "auth" →
      s ≠ "syslog" → s ≠ "lpr" → s ≠ "news" → s ≠ "uucp" → s ≠ "cron" → s ≠ "authpriv" →
      s ≠ "ftp" → s ≠ "local0" → s ≠ "local1" → s ≠ "local2" → s ≠ "local3" → s ≠ "local4" →
      s ≠ "local5" → s ≠ "local6" → s ≠ "local7" →
      SyslogFacilityVisitor.visit_str s =
        Except.error (DeError.invalidValue s "Unknown syslog facility!")) := by
  refine ⟨rfl, rfl, rfl, rfl, rfl, rfl, rfl, rfl, rfl, rfl, rfl, rfl, rfl, rfl, rfl, rfl,
    rfl, rfl, rfl, rfl,
    fun s h01 h02 h03 h04 h05 h06 h07 h08 h09 h10 h11 h12 h13 h14 h15 h16 h17 h18 h19 h20 => ?_⟩
  simp [SyslogFacilityVisitor.visit_str, h01, h02, h03, h04, h05, h06, h07, h08, h09, h10,
    h11, h12, h13, h14, h15, h16, h17, h18, h19, h20]

/-- C5 witness: the upper-case token `"LOCAL7"` yields a validation error. -/
theorem SyslogFacilityVisitor.visit_str_facility_table_witness :
    SyslogFacilityVisitor.visit_str "LOCAL7" =
      Except.error (DeError.invalidValue "LOCAL7" "Unknown syslog facility!") :=
  SyslogFacilityVisitor.visit_str_facility_table.2.2.2.2.2.2.2.2.2.2.2.2.2.2.2.2.2.2.2.2 "LOCAL7"
    (by decide) (by decide) (by decide) (by decide) (by decide) (by decide) (by decide)
    (by decide) (by decide) (by decide) (by decide) (by decide) (by decide) (by decide)
    (by decide) (by decide) (by decide) (by decide) (by decide) (by decide)

/-- C6 counterexample: the mixed-case token `"Rfc3164"` is rejected by the
`SyslogProtocol` parser, so the parser is not case-insensitive on every
case variant of the two tokens. -/
theorem SyslogProtocolVisitor.visit_str_mixed_case_fails :
    SyslogProtocolVisitor.visit_str "Rfc3164" =
      Except.error (DeError.invalidValue "Rfc3164" "Unknown syslog protocol!") := rfl

/-- C6 amended: the `SyslogProtocol` parser succeeds exactly on the
all-lowercase and all-uppercase forms of the two tokens — `"rfc3164"`,
`"RFC3164"`, `"rfc5424"`, `"RFC5424"` — and fails on every other string,
mixed-case variants included. -/
theorem SyslogProtocolVisitor.visit_str_ok_iff (s : String) :
    (∃ p, SyslogProtocolVisitor.visit_str s = Except.ok p) ↔
      s = "rfc3164" ∨ s = "RFC3164" ∨ s = "rfc5424" ∨ s = "RFC5424" := by
  constructor
  · rintro ⟨p, hp⟩
    by_contra h
    push_neg at h
    obtain ⟨h1, h2, h3, h4⟩ := h
    simp [SyslogProtocolVisitor.visit_str, h1, h2, h3, h4] at hp
  · rintro (h | h | h | h) <;> subst h
    · exact ⟨SyslogProtocol.Rfc3164, rfl⟩
    · exact ⟨SyslogProtocol.Rfc3164, rfl⟩
    · exact ⟨SyslogProtocol.Rfc5424, rfl⟩
    · exact ⟨SyslogProtocol.Rfc5424, rfl⟩

/-- C6 amended witness: `"RFC5424"` is accepted. -/
theorem SyslogProtocolVisitor.visit_str_ok_iff_witness :
    ∃ p, SyslogProtocolVisitor.visit_str "RFC5424" = Except.ok p :=
  (SyslogProtocolVisitor.visit_str_ok_iff "RFC5424").mpr (Or.inr (Or.inr (Or.inr rfl)))

/-- C7: the translation from `SyslogFacility` into the external syslog
library's facility identifier is total (it is a function defined by an
exhaustive twenty-arm match) and one-to-one. -/
theorem SyslogFacility.into_injective :
    ∀ a b : SyslogFacility, SyslogFacility.into a = SyslogFacility.into b → a = b := by
  decide

/-- C7 witness: the injectivity theorem applied at a concrete pair. -/
theorem SyslogFacility.into_injective_witness :
    SyslogFacility.Local7 = SyslogFacility.Local7 :=
  SyslogFacility.into_injective SyslogFacility.Local7 SyslogFacility.Local7 rfl

/-- C9: among the three platform branches of `Config::from_config_file`,
exactly the Windows (`%APPDATA%`) branch treats absence of its governing
environment variable as a hard failure; the macOS and Linux/Unix branches
always produce a path, degrading to an empty prefix before the fixed
suffix when the prefix query or variable is unavailable. -/
theorem from_config_file_env_asymmetry :
    (∃ msg, windowsConfigFilePath none = Except.error msg) ∧
    (∀ p, windowsConfigFilePath (some p) = Except.ok (p ++ "/another-mq/another-mq.toml")) ∧
    (∀ c, macosConfigFilePath (Except.error c) none =
      Except.ok "/etc/another-mq/another-mq.toml") ∧
    (∀ out home, macosConfigFilePath (Except.ok out) home =
      Except.ok (out ++ "/etc/another-mq/another-mq.toml")) ∧
    (∀ brewResult home, ∃ p, macosConfigFilePath brewResult home = Except.ok p) ∧
    (unixConfigFilePath none = Except.ok "/etc/another-mq/another-mq.toml") ∧
    (∀ home, ∃ p, unixConfigFilePath home = Except.ok p) := by
  refine ⟨⟨_, rfl⟩, fun p => rfl, fun c => ?_, fun out home => rfl, fun b h => ?_, ?_, fun h => ⟨_, rfl⟩⟩
  · simp [macosConfigFilePath]
  · cases b with
    | ok out => exact ⟨_, rfl⟩
    | error c => exact ⟨_, rfl⟩
  · simp [unixConfigFilePath]

/-- C10: loading is all-or-nothing — whenever the deserialization of a
well-formed document fails on any field, `Config::from_file` returns
exactly `Config::default()`, discarding every correctly specified field of
the same document. -/
theorem Config.from_file_all_or_nothing (d : ConfigDoc) (e : DeError)
    (h : Config.deserialize d = Except.error e) :
    Config.from_file (Except.ok (RawToml.wellFormed d)) = Config.default := by
  simp [Config.from_file, toml_from_str, h]

/-- C10 witness: a document with a valid `network.port = 9999` but one
unrecognized facility token collapses to the full default. -/
theorem Config.from_file_all_or_nothing_witness :
    Config.from_file (Except.ok (RawToml.wellFormed
      ⟨some ⟨none, none, some ⟨none, none, some "rfc3164", some "LOCAL7", some "amq"⟩⟩,
        some ⟨none, some 9999⟩, some ()⟩)) = Config.default :=
  Config.from_file_all_or_nothing _
    (DeError.invalidValue "LOCAL7" "Unknown syslog facility!") rfl

/-- C2 (code bug): the specification's per-field-defaulting contract — a
valid document keeps every specified field and defaults the omitted ones —
is unsatisfiable in the code: the required unit-struct field `queue`
(config.rs lines 46-47, 394) can never be deserialized from a TOML value,
so `Config` deserialization fails on every document and `Config::from_file`
returns `Config::default()` unconditionally. In particular a document
supplying `[log]`, `network.port = 9999` and `[queue]` loads with port
5672, not 9999. -/
theorem Config.from_file_queue_never_parses :
    (∀ d : ConfigDoc, ∃ e, Config.deserialize d = Except.error e) ∧
    (∀ r : Except IoError RawToml, Config.from_file r = Config.default) ∧
    Config.from_file (Except.ok (RawToml.wellFormed
      ⟨some ⟨none, none, none⟩, some ⟨none, some 9999⟩, some ()⟩)) = Config.default ∧
    (Config.from_file (Except.ok (RawToml.wellFormed
      ⟨some ⟨none, none, none⟩, some ⟨none, some 9999⟩, some ()⟩))).network.port = 5672 := by
  have h1 : ∀ d : ConfigDoc, ∃ e, Config.deserialize d = Except.error e := by
    rintro ⟨dl, dn, dq⟩
    cases dl with
    | none => exact ⟨DeError.missingField "log", rfl⟩
    | some ld =>
      rcases hld : Log.deserialize ld with e | log
      · exact ⟨e, by simp [Config.deserialize, hld]⟩
      · cases dn with
        | none => exact ⟨DeError.missingField "network", by simp [Config.deserialize, hld]⟩
        | some nd =>
          cases dq with
          | none => exact ⟨DeError.missingField "queue", by simp [Config.deserialize, hld]⟩
          | some u =>
            exact ⟨DeError.invalidValue "map" "unit struct Queue",
              by simp [Config.deserialize, hld]⟩
  refine ⟨h1, ?_, rfl, rfl⟩
  intro r
  cases r with
  | error e => rfl
  | ok raw =>
    cases raw with
    | malformed => rfl
    | wellFormed d =>
      obtain ⟨e, he⟩ := h1 d
      simp [Config.from_file, toml_from_str, he]

/-- A `[log.syslog]` table that omits the `process` key always fails to
deserialize: `process` is a required field of the `Syslog` derive, with no
`#[serde(default)]`. -/
theorem Syslog.deserialize_missing_process :
    ∀ sd : SyslogDoc, sd.process = none → ∃ e, Syslog.deserialize sd = Except.error e := by
  rintro ⟨h, p, pr, fa, ps⟩ hp
  have hp' : ps = none := hp
  subst hp'
  cases pr with
  | none => exact ⟨DeError.missingField "protocol", rfl⟩
  | some rp =>
    rcases hv : SyslogProtocolVisitor.visit_str rp with e | protocol
    · exact ⟨e, by simp [Syslog.deserialize, hv]⟩
    · cases fa with
      | none => exact ⟨DeError.missingField "facility", by simp [Syslog.deserialize, hv]⟩
      | some rf =>
        rcases hf : SyslogFacilityVisitor.visit_str rf with e | facility
        · exact ⟨e, by simp [Syslog.deserialize, hv, hf]⟩
        · exact ⟨DeError.missingField "process", by simp [Syslog.deserialize, hv, hf]⟩

/-- C8 counterexample: for a document whose `[log.syslog]` table omits
`process` (protocol and facility valid), the loaded Config has no syslog
entity at all — in particular no syslog process field equal to the empty
string — because the parse fails and the loader falls back to the default,
whose `log.syslog` is `None`. -/
theorem Config.from_file_missing_process_counterexample :
    ¬ ∃ s : Syslog,
      (Config.from_file (Except.ok (RawToml.wellFormed
        ⟨some ⟨none, none, some ⟨none, none, some "rfc3164", some "user", none⟩⟩,
          some ⟨none, none⟩, some ()⟩))).log.syslog = some s ∧ s.process = "" := by
  rintro ⟨s, hs, -⟩
  rw [(rfl : Config.from_file (Except.ok (RawToml.wellFormed
        ⟨some ⟨none, none, some ⟨none, none, some "rfc3164", some "user", none⟩⟩,
          some ⟨none, none⟩, some ()⟩)) = Config.default)] at hs
  exact Option.noConfusion hs

/-- C8 amended: a document that supplies a `log.syslog` table but omits the
`process` field fails to parse (`process` is required, with no serde
default), so `Config::from_file` returns `Config::default()`, whose
`log.syslog` is `None`; the empty-string default for `process` exists only
in `Syslog::default()`, which document parsing never consults. -/
theorem Config.from_file_missing_process_falls_back (d : ConfigDoc) (ld : LogDoc)
    (sd : SyslogDoc) (hl : d.log = some ld) (hs : ld.syslog = some sd)
    (hp : sd.process = none) :
    Config.from_file (Except.ok (RawToml.wellFormed d)) = Config.default := by
  obtain ⟨e, he⟩ := Syslog.deserialize_missing_process sd hp
  have hlog : Log.deserialize ld = Except.error e := by simp [Log.deserialize, hs, he]
  have hd : Config.deserialize d = Except.error e := by simp [Config.deserialize, hl, hlog]
  simp [Config.from_file, toml_from_str, hd]

/-- C8 amended witness: a concrete document whose syslog table omits
`process` loads as the full default. -/
theorem Config.from_file_missing_process_falls_back_witness :
    Config.from_file (Except.ok (RawToml.wellFormed
      ⟨some ⟨none, none, some ⟨none, none, some "rfc5424", some "daemon", none⟩⟩,
        some ⟨none, none⟩, some ()⟩)) = Config.default :=
  Config.from_file_missing_process_falls_back _ _ _ rfl rfl rfl

end AnotherMQ
